import Mathlib

/-!
Verification of the message-history / provider-dispatch core of the
Generative-AI-ChatBot-using-Langchain repository.

The repository contains near-duplicate Streamlit chat applications:
`chatbot.py` (single-value `llm.invoke` reply), `aibot.py` (streaming reply,
fixed Groq provider), and `bot.py` (streaming reply, four-provider dispatch).
Each keeps an append-only `st.session_state.chat_history` of
`\x7brole, content\x7d` dictionaries, appends the user entry on submission,
builds the outbound request by prepending a system entry, and appends the
assistant entry on success.

This file shallowly embeds that core: the Python dictionaries become a
`Message` structure, `st.session_state` fields become a `SessionState`
structure, one execution of a chat-input handler becomes a pure step
function from the state and the provider outcome to the new state together
with the dispatched request (if any), and `os.getenv` becomes an explicit
environment function `String → Option String`.
-/

/-- The role tag of a chat entry (the `role` key of the Python dicts). -/
inductive Role where
  | system
  | user
  | assistant
deriving DecidableEq, Repr

/-- One chat entry: the Python `\x7b"role": r, "content": c\x7d` dictionary. -/
structure Message where
  role : Role
  content : String
deriving DecidableEq, Repr

/-- Shorthand for a user entry. -/
def userMsg (c : String) : Message := ⟨Role.user, c⟩

/-- Shorthand for an assistant entry. -/
def assistantMsg (c : String) : Message := ⟨Role.assistant, c⟩

/-- One entry of `PROVIDER_CONFIG` in `bot.py`.  The Python keys
`import_path` and `class_name` (used only for the dynamic class lookup,
which a pure embedding replaces by returning the configured parameters)
are carried as `py_module` and `py_class`. -/
structure ProviderEntry where
  name : String
  models : List String
  py_module : String
  py_class : String
  env_key : Option String
deriving DecidableEq, Repr

/-- The `PROVIDER_CONFIG` dictionary of `bot.py` (lines 44-69), in its
insertion order. -/
def PROVIDER_CONFIG : List ProviderEntry :=
  [ ⟨"OpenAI", ["gpt-4o", "gpt-4o-mini", "gpt-3.5-turbo", "gpt-4-turbo"],
      "langchain_openai", "ChatOpenAI", some "OPENAI_API_KEY"⟩,
    ⟨"Google Gemini", ["gemini-2.5-flash-lite", "gemini-2.5-flash", "gemini-2.5-pro"],
      "langchain_google_genai", "ChatGoogleGenerativeAI", some "GOOGLE_API_KEY"⟩,
    ⟨"Groq", ["llama-3.1-8b-instant", "llama-3.3-70b-versatile", "mixtral-8x7b-32768"],
      "langchain_groq", "ChatGroq", some "GROQ_API_KEY"⟩,
    ⟨"Ollama", ["llama3.3", "gemma3", "mistral-small3.2", "phi4"],
      "langchain_ollama", "ChatOllama", none⟩ ]

/-- Dictionary lookup `PROVIDER_CONFIG[provider]`: the first entry whose
name matches, `none` for the `KeyError` case. -/
def findProvider (provider : String) : Option ProviderEntry :=
  PROVIDER_CONFIG.find? (fun e => e.name == provider)

/-- Python truthiness of an `os.getenv` result: `None` and the empty
string are falsy, every other string is truthy. -/
def truthy : Option String → Bool
  | none => false
  | some s => s ≠ ""

/-- The keyword arguments `common_params` with which `bot.py` constructs
the LLM client: model identifier, temperature, and (except for Ollama)
`max_tokens`.  Temperature is only carried, never computed with, so it is
embedded as a rational. -/
structure LLMParams where
  model : String
  temperature : ℚ
  max_tokens : Option Nat
deriving DecidableEq, Repr

/-- Result of `get_llm_instance`: either a configured client (its
constructor parameters) or the `None` return together with the user-facing
`st.error` message shown on that path. -/
inductive LLMInit where
  | ok (params : LLMParams)
  | error (userMessage : String)
deriving DecidableEq, Repr

/-- `get_llm_instance(provider, model_name, temperature, max_tokens)` from
`bot.py` lines 76-120, with `os.getenv` passed in as `env`.  An unknown
provider raises `KeyError`, caught by the generic `except` branch; a
required credential that is unset (or set to the falsy empty string)
yields the error message naming the variable; otherwise the client is
constructed from `common_params`, with `max_tokens` added only when the
provider is not `"Ollama"`.  The `ImportError` branch (a missing SDK
package) is outside the embedded state and is not modelled. -/
def get_llm_instance (env : String → Option String) (provider : String)
    (model_name : String) (temperature : ℚ) (max_tokens : Nat) : LLMInit :=
  match findProvider provider with
  | none => .error ("⚠️ Error initializing " ++ provider ++ ": KeyError")
  | some config =>
      match config.env_key with
      | some key =>
          if truthy (env key) then
            .ok ⟨model_name, temperature,
                 if provider == "Ollama" then none else some max_tokens⟩
          else
            .error ("⚠️ " ++ key ++ " not found in environment variables!")
      | none =>
          .ok ⟨model_name, temperature,
               if provider == "Ollama" then none else some max_tokens⟩

/-- The system prompt string shared by `bot.py` (line 570) and `aibot.py`
(line 366). -/
def bot_system_prompt : String :=
  "You are a helpful, friendly, and knowledgeable AI assistant. Provide clear, accurate, and engaging responses."

/-- The system prompt string of `chatbot.py` (line 45). -/
def chatbot_system_prompt : String := "You are a helpful assistant"

/-- Outcome of iterating `llm.stream(...)`: either the finite list of text
fragments of a completed stream, or an exception raised mid-iteration
after some fragments were already received. -/
inductive StreamOutcome where
  | success (fragments : List String)
  | failure (received : List String)
deriving DecidableEq, Repr

/-- Outcome of the single-value `llm.invoke(...)` call of `chatbot.py`:
the `response.content` string, or an exception. -/
inductive InvokeOutcome where
  | success (content : String)
  | failure
deriving DecidableEq, Repr

/-- The `full_response` accumulation loop of `bot.py` lines 575-578 and
`aibot.py` lines 364-372: starting from the empty string, each fragment is
appended in the order received. -/
def accumulate_fragments (fragments : List String) : String :=
  fragments.foldl (fun acc part => acc ++ part) ""

/-- The per-session mutable state the handlers touch: `chat_history`
together with the sidebar selections and generation parameters that
Streamlit keeps across reruns. -/
structure SessionState where
  chat_history : List Message
  selected_provider : String
  selected_model : Option String
  temperature : ℚ
  max_tokens : Nat
deriving DecidableEq, Repr

/-- The request list `messages` built by `bot.py` lines 568-572 and
`aibot.py` lines 365-368: the synthesized system entry followed by the
whole stored history. -/
def build_messages (system_prompt : String) (history : List Message) : List Message :=
  ⟨Role.system, system_prompt⟩ :: history

/-- One execution of the `bot.py` chat-input handler (lines 547-588).
`user_prompt` is the `st.chat_input` result (`none` when nothing was
submitted; the guard `if user_prompt:` also rejects the falsy empty
string).  On dispatch the user entry is appended first; `llmInit` is the
`get_llm_instance` result (on `.error`, `llm` is `None` and no call is
issued); `outcome` is the stream iteration result.  Returns the new state
and the request actually sent to the provider, if any. -/
def bot_handle_turn (st : SessionState) (user_prompt : Option String)
    (llmInit : LLMInit) (outcome : StreamOutcome) :
    SessionState × Option (List Message) :=
  match user_prompt with
  | none => (st, none)
  | some p =>
    if p = "" then (st, none)
    else
      let st1 := { st with chat_history := st.chat_history ++ [userMsg p] }
      match llmInit with
      | .error _ => (st1, none)
      | .ok _ =>
          let msgs := build_messages bot_system_prompt st1.chat_history
          match outcome with
          | .success frags =>
              ({ st1 with chat_history :=
                   st1.chat_history ++ [assistantMsg (accumulate_fragments frags)] },
               some msgs)
          | .failure _ => (st1, some msgs)

/-- One execution of the `aibot.py` chat-input handler (lines 349-377):
like `bot.py` but with a fixed, already constructed Groq client, so there
is no initialization step. -/
def aibot_handle_turn (history : List Message) (user_prompt : Option String)
    (outcome : StreamOutcome) : List Message × Option (List Message) :=
  match user_prompt with
  | none => (history, none)
  | some p =>
    if p = "" then (history, none)
    else
      let h1 := history ++ [userMsg p]
      let msgs := build_messages bot_system_prompt h1
      match outcome with
      | .success frags =>
          (h1 ++ [assistantMsg (accumulate_fragments frags)], some msgs)
      | .failure _ => (h1, some msgs)

/-- One execution of the `chatbot.py` input handler (lines 39-51): a
single-value `llm.invoke` reply, no `try`/`except` (an exception aborts
the script run after the user append, so no assistant entry is added). -/
def chatbot_handle_turn (history : List Message) (user_prompt : Option String)
    (outcome : InvokeOutcome) : List Message × Option (List Message) :=
  match user_prompt with
  | none => (history, none)
  | some p =>
    if p = "" then (history, none)
    else
      let h1 := history ++ [userMsg p]
      let msgs := build_messages chatbot_system_prompt h1
      match outcome with
      | .success content => (h1 ++ [assistantMsg content], some msgs)
      | .failure => (h1, some msgs)

/-- The "Clear Chat" handler of `bot.py` (lines 506-508) and `aibot.py`
(lines 311-314): the only session-state write is `chat_history = []`. -/
def clearChat (st : SessionState) : SessionState :=
  { st with chat_history := [] }

/-- The role label used by the export rendering: the Python conditional
`'User' if msg['role'] == 'user' else 'Assistant'`. -/
def role_label (r : Role) : String :=
  if r = Role.user then "User" else "Assistant"

/-- One line of the export: `"<Role>: <content>"`. -/
def render_message (m : Message) : String :=
  role_label m.role ++ ": " ++ m.content

/-- The `chat_text` export of `bot.py` (lines 512-515) and `aibot.py`
(lines 288-291): `"\n\n".join(...)` over the rendered history, a pure
function of the current history. -/
def chat_text (history : List Message) : String :=
  String.intercalate "\n\n" (history.map render_message)

/-- The sidebar selection state of `bot.py`: `selected_provider` (defaulted
to `"Groq"` at session start) and `selected_model` (absent until first
set, read through `st.session_state.get`). -/
structure SelectionState where
  selected_provider : String
  selected_model : Option String
deriving DecidableEq, Repr

/-- The session-start selection state of `bot.py` (lines 420-421):
provider `"Groq"`, no `selected_model` key yet. -/
def initial_selection : SelectionState := ⟨"Groq", none⟩

/-- One user interaction with the `bot.py` sidebar (lines 431-461).  Both
selectboxes offer only listed options, so a choice is an index into the
respective option list. -/
inductive SelEvent where
  | pickProvider (i : Fin PROVIDER_CONFIG.length)
  | pickModel (j : Nat)
deriving DecidableEq

/-- The effect of one sidebar interaction on the selection state.
Choosing a provider different from the current one sets
`selected_model` to that provider's first listed model and reruns
(lines 440-443).  Choosing a model picks from `available_models`, the
current provider's list (lines 446-456, guarded to a valid index since
the selectbox offers exactly those options); the update at lines 459-461
stores it. -/
def selStep (st : SelectionState) (e : SelEvent) : SelectionState :=
  match e with
  | .pickProvider i =>
      let p := PROVIDER_CONFIG.get i
      if p.name ≠ st.selected_provider then
        ⟨p.name, p.models.head?⟩
      else st
  | .pickModel j =>
      match findProvider st.selected_provider with
      | none => st
      | some config =>
          if h : j < config.models.length then
            { st with selected_model := some (config.models.get ⟨j, h⟩) }
          else st

/-- A selection state reachable from session start by sidebar
interactions. -/
def selReachable (st : SelectionState) : Prop :=
  ∃ evs : List SelEvent, st = evs.foldl selStep initial_selection

/-- The selection invariant: whenever a model is stored, it belongs to the
currently selected provider's model list. -/
def selInvariant (st : SelectionState) : Prop :=
  ∀ m, st.selected_model = some m →
    ∃ config, findProvider st.selected_provider = some config ∧ m ∈ config.models

/-- Modelled from the spec: the simplest of the four near-duplicate
variants is not under `src/`; per the spec it "folds the system entry into
the same durable list it persists and displays".  Its history therefore
starts as the singleton system entry. -/
def simple_variant_init (system_prompt : String) : List Message :=
  [⟨Role.system, system_prompt⟩]

/-- Modelled from the spec: one successful turn of the simplest variant
appends the user entry and then the assistant entry to the same durable
list; the outbound request is that durable list itself (the system entry
is already inside it, not synthesized per call). -/
def simple_variant_turn (history : List Message) (p reply : String) : List Message :=
  history ++ [userMsg p, assistantMsg reply]

/-- A run of the simplest variant over a list of (prompt, reply) turns. -/
def simple_variant_run (system_prompt : String)
    (turns : List (String × String)) : List Message :=
  turns.foldl (fun h t => simple_variant_turn h t.1 t.2) (simple_variant_init system_prompt)

/-- A run of successful `chatbot.py` turns over (prompt, reply content)
pairs, starting from a given history. -/
def chatbot_run_from (history : List Message)
    (turns : List (String × String)) : List Message :=
  turns.foldl (fun h t => (chatbot_handle_turn h (some t.1) (.success t.2)).1) history

/-- A run of successful `chatbot.py` turns from the empty session-start
history. -/
def chatbot_run (turns : List (String × String)) : List Message :=
  chatbot_run_from [] turns

/-- A run of successful `aibot.py` turns over (prompt, fragment list)
pairs, starting from a given history. -/
def aibot_run_from (history : List Message)
    (turns : List (String × List String)) : List Message :=
  turns.foldl (fun h t => (aibot_handle_turn h (some t.1) (.success t.2)).1) history

/-- A run of successful `aibot.py` turns from the empty session-start
history. -/
def aibot_run (turns : List (String × List String)) : List Message :=
  aibot_run_from [] turns

/-- One arbitrary execution of the `bot.py` handler, packaged for runs:
the submitted input (possibly absent), the initialization result, and the
stream outcome. -/
structure TurnInput where
  user_prompt : Option String
  llmInit : LLMInit
  outcome : StreamOutcome

/-- A run of arbitrary `bot.py` handler executions (successful, failed, or
not dispatched) from a given state. -/
def bot_run_from (st : SessionState) (inputs : List TurnInput) : SessionState :=
  inputs.foldl (fun s inp => (bot_handle_turn s inp.user_prompt inp.llmInit inp.outcome).1) st

/-- Boolean check that a message list strictly alternates roles starting
with the expected one: `alt_from true` demands user, assistant, user, ... -/
def alt_from (expectUser : Bool) : List Message → Bool
  | [] => true
  | m :: rest =>
      (m.role == (if expectUser then Role.user else Role.assistant)) && alt_from (!expectUser) rest

/-- The export rendering as the spec words it: one `"<Role>: <content>"`
line per entry, joined by blank lines, the empty string for an empty
conversation.  Stated separately from `chat_text` (the source join) so
their equality is a theorem, not a definition. -/
def export_spec_render : List Message → String
  | [] => ""
  | [m] => render_message m
  | m :: rest => render_message m ++ "\n\n" ++ export_spec_render rest

/-- The two entries one successful (prompt, reply) turn appends, over a
whole run. -/
def turn_pairs : List (String × String) → List Message
  | [] => []
  | t :: rest => userMsg t.1 :: assistantMsg t.2 :: turn_pairs rest

/-- The two entries one successful streamed (prompt, fragment list) turn
appends, over a whole run. -/
def stream_turn_pairs : List (String × List String) → List Message
  | [] => []
  | t :: rest => userMsg t.1 :: assistantMsg (String.join t.2) :: stream_turn_pairs rest

theorem str_foldl_append (l : List String) :
    ∀ x : String, l.foldl (fun r s => r ++ s) x = x ++ l.foldl (fun r s => r ++ s) "" := by
  induction l with
  | nil => intro x; simp [String.append_empty]
  | cons a as ih =>
      intro x
      rw [List.foldl_cons, List.foldl_cons, ih (x ++ a), ih ("" ++ a)]
      rw [String.empty_append, String.append_assoc]

theorem str_join_cons (x : String) (xs : List String) :
    String.join (x :: xs) = x ++ String.join xs := by
  rw [String.join, String.join, List.foldl_cons, String.empty_append, str_foldl_append]

theorem intercalate_go_eq (s : String) :
    ∀ (l : List String) (acc : String),
      String.intercalate.go acc s l = acc ++ String.join (l.map (fun a => s ++ a)) := by
  intro l
  induction l with
  | nil => intro acc; simp [String.intercalate.go, String.join, String.append_empty]
  | cons a as ih =>
      intro acc
      rw [String.intercalate.go, ih, List.map_cons, str_join_cons]
      simp [String.append_assoc]

theorem intercalate_cons_cons (s a b : String) (l : List String) :
    String.intercalate s (a :: b :: l) = a ++ s ++ String.intercalate s (b :: l) := by
  rw [String.intercalate, String.intercalate, String.intercalate.go,
      intercalate_go_eq, intercalate_go_eq]
  simp [String.append_assoc]

theorem accumulate_eq_join (l : List String) :
    accumulate_fragments l = String.join l := rfl

theorem mem_of_head?_eq {α : Type} {l : List α} {a : α} (h : l.head? = some a) :
    a ∈ l := by
  cases l with
  | nil => simp at h
  | cons x xs =>
      simp only [List.head?_cons, Option.some.injEq] at h
      simp [h.symm]

theorem findProvider_get :
    ∀ i : Fin PROVIDER_CONFIG.length,
      findProvider (PROVIDER_CONFIG.get i).name = some (PROVIDER_CONFIG.get i) := by
  decide

theorem provider_models_head :
    ∀ i : Fin PROVIDER_CONFIG.length,
      (PROVIDER_CONFIG.get i).models.head?
        = some ((PROVIDER_CONFIG.get i).models.headD "") := by
  decide

theorem chatbot_run_from_eq (turns : List (String × String)) :
    ∀ h : List Message, (∀ t ∈ turns, t.1 ≠ "") →
      chatbot_run_from h turns = h ++ turn_pairs turns := by
  induction turns with
  | nil => intro h _; simp [chatbot_run_from, turn_pairs]
  | cons t rest ih =>
      intro h hne
      have ht : t.1 ≠ "" := hne t (by simp)
      have hrest : ∀ u ∈ rest, u.1 ≠ "" := fun u hu => hne u (by simp [hu])
      have hstep : (chatbot_handle_turn h (some t.1) (.success t.2)).1
          = h ++ [userMsg t.1, assistantMsg t.2] := by
        simp [chatbot_handle_turn, ht]
      calc chatbot_run_from h (t :: rest)
          = chatbot_run_from (h ++ [userMsg t.1, assistantMsg t.2]) rest := by
            simp [chatbot_run_from, hstep]
        _ = h ++ turn_pairs (t :: rest) := by
            rw [ih _ hrest, turn_pairs]
            simp

theorem aibot_run_from_eq (turns : List (String × List String)) :
    ∀ h : List Message, (∀ t ∈ turns, t.1 ≠ "") →
      aibot_run_from h turns = h ++ stream_turn_pairs turns := by
  induction turns with
  | nil => intro h _; simp [aibot_run_from, stream_turn_pairs]
  | cons t rest ih =>
      intro h hne
      have ht : t.1 ≠ "" := hne t (by simp)
      have hrest : ∀ u ∈ rest, u.1 ≠ "" := fun u hu => hne u (by simp [hu])
      have hstep : (aibot_handle_turn h (some t.1) (.success t.2)).1
          = h ++ [userMsg t.1, assistantMsg (String.join t.2)] := by
        simp [aibot_handle_turn, ht, accumulate_eq_join]
      calc aibot_run_from h (t :: rest)
          = aibot_run_from (h ++ [userMsg t.1, assistantMsg (String.join t.2)]) rest := by
            simp [aibot_run_from, hstep]
        _ = h ++ stream_turn_pairs (t :: rest) := by
            rw [ih _ hrest, stream_turn_pairs]
            simp

theorem turn_pairs_length (turns : List (String × String)) :
    (turn_pairs turns).length = 2 * turns.length := by
  induction turns with
  | nil => simp [turn_pairs]
  | cons t rest ih => simp [turn_pairs, ih]; ring

theorem stream_turn_pairs_length (turns : List (String × List String)) :
    (stream_turn_pairs turns).length = 2 * turns.length := by
  induction turns with
  | nil => simp [stream_turn_pairs]
  | cons t rest ih => simp [stream_turn_pairs, ih]; ring

theorem alt_from_turn_pairs (turns : List (String × String)) :
    alt_from true (turn_pairs turns) = true := by
  induction turns with
  | nil => simp [turn_pairs, alt_from]
  | cons t rest ih => simp [turn_pairs, alt_from, userMsg, assistantMsg, ih]

theorem alt_from_stream_turn_pairs (turns : List (String × List String)) :
    alt_from true (stream_turn_pairs turns) = true := by
  induction turns with
  | nil => simp [stream_turn_pairs, alt_from]
  | cons t rest ih => simp [stream_turn_pairs, alt_from, userMsg, assistantMsg, ih]

theorem bot_handle_turn_roles (st : SessionState) (p : Option String)
    (i : LLMInit) (o : StreamOutcome) :
    ∀ m ∈ (bot_handle_turn st p i o).1.chat_history,
      m ∈ st.chat_history ∨ m.role = Role.user ∨ m.role = Role.assistant := by
  intro m hm
  cases p with
  | none => simp [bot_handle_turn] at hm; exact Or.inl hm
  | some q =>
      by_cases hq : q = ""
      · simp [bot_handle_turn, hq] at hm; exact Or.inl hm
      · cases i with
        | error e =>
            simp [bot_handle_turn, hq] at hm
            rcases hm with h | h
            · exact Or.inl h
            · exact Or.inr (Or.inl (by simp [h, userMsg]))
        | ok params =>
            cases o with
            | success frags =>
                simp [bot_handle_turn, hq] at hm
                rcases hm with h | h | h
                · exact Or.inl h
                · exact Or.inr (Or.inl (by simp [h, userMsg]))
                · exact Or.inr (Or.inr (by simp [h, assistantMsg]))
            | failure received =>
                simp [bot_handle_turn, hq] at hm
                rcases hm with h | h
                · exact Or.inl h
                · exact Or.inr (Or.inl (by simp [h, userMsg]))

theorem bot_run_no_system (inputs : List TurnInput) :
    ∀ st : SessionState, (∀ m ∈ st.chat_history, m.role ≠ Role.system) →
      ∀ m ∈ (bot_run_from st inputs).chat_history, m.role ≠ Role.system := by
  induction inputs with
  | nil => intro st hst; simpa [bot_run_from] using hst
  | cons inp rest ih =>
      intro st hst
      have hstep : ∀ m ∈ (bot_handle_turn st inp.user_prompt inp.llmInit inp.outcome).1.chat_history,
          m.role ≠ Role.system := by
        intro m hm
        rcases bot_handle_turn_roles st inp.user_prompt inp.llmInit inp.outcome m hm with
          h | h | h
        · exact hst m h
        · simp [h]
        · simp [h]
      have : bot_run_from st (inp :: rest)
          = bot_run_from (bot_handle_turn st inp.user_prompt inp.llmInit inp.outcome).1 rest := by
        simp [bot_run_from]
      rw [this]
      exact ih _ hstep

theorem selStep_preserves (st : SelectionState) (e : SelEvent)
    (h : selInvariant st) : selInvariant (selStep st e) := by
  cases e with
  | pickProvider i =>
      by_cases heq : (PROVIDER_CONFIG.get i).name = st.selected_provider
      · intro m hm
        simp only [selStep, heq, ne_eq, not_true_eq_false, reduceIte] at hm ⊢
        exact h m hm
      · intro m hm
        simp only [selStep, ne_eq, heq, not_false_eq_true, reduceIte] at hm ⊢
        exact ⟨PROVIDER_CONFIG.get i, findProvider_get i, mem_of_head?_eq hm⟩
  | pickModel j =>
      have hprov : (selStep st (SelEvent.pickModel j)).selected_provider
          = st.selected_provider := by
        cases hfind : findProvider st.selected_provider with
        | none => simp [selStep, hfind]
        | some config =>
            by_cases hj : j < config.models.length
            · simp [selStep, hfind, hj]
            · simp [selStep, hfind, hj]
      intro m hm
      rw [hprov]
      cases hfind : findProvider st.selected_provider with
      | none =>
          simp only [selStep, hfind] at hm
          obtain ⟨c, hc, _⟩ := h m hm
          rw [hfind] at hc
          exact absurd hc (by simp)
      | some config =>
          by_cases hj : j < config.models.length
          · simp only [selStep, hfind, hj, dif_pos, Option.some.injEq] at hm
            exact ⟨config, rfl, hm ▸ List.get_mem config.models j hj⟩
          · simp only [selStep, hfind, hj, dif_neg, not_false_iff] at hm
            obtain ⟨c, hc, hmem⟩ := h m hm
            rw [hfind] at hc
            exact ⟨c, hc, hmem⟩

theorem selReachable_invariant (st : SelectionState)
    (h : selReachable st) : selInvariant st := by
  obtain ⟨evs, rfl⟩ := h
  have key : ∀ s : SelectionState, selInvariant s → selInvariant (evs.foldl selStep s) := by
    induction evs with
    | nil => intro s hs; exact hs
    | cons e rest ih =>
        intro s hs
        rw [List.foldl_cons]
        exact ih _ (selStep_preserves s e hs)
  exact key initial_selection (by intro m hm; simp [initial_selection] at hm)

/-- C1: a model call that fails (an exception while iterating the stream)
leaves the store exactly as it was immediately before the call: the user
entry appended for the turn persists and no assistant entry — not even one
built from the fragments received before the failure — is appended.  Shown
for the `bot.py` handler (after a successful initialization) and for the
`aibot.py` handler. -/
theorem c1_failed_call_preserves_store (st : SessionState) (history : List Message)
    (p : String) (hp : p ≠ "") (params : LLMParams) (received : List String) :
    (bot_handle_turn st (some p) (.ok params) (.failure received)).1.chat_history
      = st.chat_history ++ [userMsg p]
    ∧ (aibot_handle_turn history (some p) (.failure received)).1
      = history ++ [userMsg p] := by
  constructor
  · simp [bot_handle_turn, hp]
  · simp [aibot_handle_turn, hp]

/-- Witness for C1 at a concrete turn: prompt `"Hello"`, two fragments
received before the failure; only the user entry is appended. -/
theorem c1_witness :
    (bot_handle_turn ⟨[], "Groq", none, 0, 1024⟩ (some "Hello")
        (.ok ⟨"llama-3.1-8b-instant", 0, some 1024⟩) (.failure ["Hi", " there"])).1.chat_history
      = [userMsg "Hello"]
    ∧ (aibot_handle_turn [] (some "Hello") (.failure ["Hi", " there"])).1
      = [userMsg "Hello"] := by
  have h := c1_failed_call_preserves_store ⟨[], "Groq", none, 0, 1024⟩ []
    "Hello" (by decide) ⟨"llama-3.1-8b-instant", 0, some 1024⟩ ["Hi", " there"]
  simpa using h

/-- C4: the assistant entry appended by a successfully streamed turn has
exactly the in-order concatenation of all received fragments as its
content (`bot.py` and `aibot.py`); for the single-value reply of
`chatbot.py` it is that returned value. -/
theorem c4_reply_concatenation (st : SessionState) (history : List Message)
    (p : String) (hp : p ≠ "") (params : LLMParams) (frags : List String) (v : String) :
    (bot_handle_turn st (some p) (.ok params) (.success frags)).1.chat_history
      = st.chat_history ++ [userMsg p, assistantMsg (String.join frags)]
    ∧ (aibot_handle_turn history (some p) (.success frags)).1
      = history ++ [userMsg p, assistantMsg (String.join frags)]
    ∧ (chatbot_handle_turn history (some p) (.success v)).1
      = history ++ [userMsg p, assistantMsg v] := by
  refine ⟨?_, ?_, ?_⟩
  · simp [bot_handle_turn, hp, accumulate_eq_join]
  · simp [aibot_handle_turn, hp, accumulate_eq_join]
  · simp [chatbot_handle_turn, hp]

/-- Witness for C4 at a concrete turn: fragments `["Hi", " there!"]`
concatenate to `"Hi there!"`. -/
theorem c4_witness :
    (bot_handle_turn ⟨[], "Groq", none, 0, 1024⟩ (some "Hello")
        (.ok ⟨"llama-3.1-8b-instant", 0, some 1024⟩) (.success ["Hi", " there!"])).1.chat_history
      = [userMsg "Hello", assistantMsg "Hi there!"]
    ∧ (aibot_handle_turn [] (some "Hello") (.success ["Hi", " there!"])).1
      = [userMsg "Hello", assistantMsg "Hi there!"]
    ∧ (chatbot_handle_turn [] (some "Hello") (.success "Hi there!")).1
      = [userMsg "Hello", assistantMsg "Hi there!"] := by
  have h := c4_reply_concatenation ⟨[], "Groq", none, 0, 1024⟩ []
    "Hello" (by decide) ⟨"llama-3.1-8b-instant", 0, some 1024⟩ ["Hi", " there!"] "Hi there!"
  have hj : String.join ["Hi", " there!"] = "Hi there!" := rfl
  rw [hj] at h
  simpa using h

/-- C9: an absent submission (`st.chat_input` returned `None`) or an empty
one (falsy under the `if user_prompt:` guard) dispatches nothing in any of
the three variants: the store is unchanged and no request is issued. -/
theorem c9_empty_submission_noop :
    (∀ (st : SessionState) (i : LLMInit) (o : StreamOutcome),
        bot_handle_turn st none i o = (st, none)
        ∧ bot_handle_turn st (some "") i o = (st, none))
    ∧ (∀ (h : List Message) (o : StreamOutcome),
        aibot_handle_turn h none o = (h, none)
        ∧ aibot_handle_turn h (some "") o = (h, none))
    ∧ (∀ (h : List Message) (o : InvokeOutcome),
        chatbot_handle_turn h none o = (h, none)
        ∧ chatbot_handle_turn h (some "") o = (h, none)) := by
  refine ⟨fun st i o => ⟨rfl, ?_⟩, fun h o => ⟨rfl, ?_⟩, fun h o => ⟨rfl, ?_⟩⟩
  · simp [bot_handle_turn]
  · simp [aibot_handle_turn]
  · simp [chatbot_handle_turn]

/-- C10: the Clear-Chat handler writes only `chat_history`; the selected
provider, selected model, temperature and max-token settings in the
session state are untouched. -/
theorem c10_clear_frame (st : SessionState) :
    (clearChat st).chat_history = []
    ∧ (clearChat st).selected_provider = st.selected_provider
    ∧ (clearChat st).selected_model = st.selected_model
    ∧ (clearChat st).temperature = st.temperature
    ∧ (clearChat st).max_tokens = st.max_tokens :=
  ⟨rfl, rfl, rfl, rfl, rfl⟩

theorem findProvider_mem : ∀ e ∈ PROVIDER_CONFIG, findProvider e.name = some e := by
  decide

theorem get_llm_missing_key (env : String → Option String) (e : ProviderEntry)
    (hfind : findProvider e.name = some e) (key : String) (hkey : e.env_key = some key)
    (henv : truthy (env key) = false) (m : String) (t : ℚ) (mt : Nat) :
    get_llm_instance env e.name m t mt
      = .error ("⚠️ " ++ key ++ " not found in environment variables!") := by
  unfold get_llm_instance
  rw [hfind]
  simp [hkey, henv]

theorem get_llm_ok_key (env : String → Option String) (e : ProviderEntry)
    (hfind : findProvider e.name = some e) (key : String) (hkey : e.env_key = some key)
    (henv : truthy (env key) = true) (hno : e.name ≠ "Ollama")
    (m : String) (t : ℚ) (mt : Nat) :
    get_llm_instance env e.name m t mt = .ok ⟨m, t, some mt⟩ := by
  unfold get_llm_instance
  rw [hfind]
  simp [hkey, henv, hno]

theorem get_llm_ollama (env : String → Option String) (m : String) (t : ℚ) (mt : Nat) :
    get_llm_instance env "Ollama" m t mt = .ok ⟨m, t, none⟩ := by
  unfold get_llm_instance
  rw [show findProvider "Ollama"
      = some ⟨"Ollama", ["llama3.3", "gemma3", "mistral-small3.2", "phi4"],
          "langchain_ollama", "ChatOllama", none⟩ from by decide]
  simp

theorem simple_variant_foldl (turns : List (String × String)) :
    ∀ h : List Message,
      turns.foldl (fun h t => simple_variant_turn h t.1 t.2) h = h ++ turn_pairs turns := by
  induction turns with
  | nil => intro h; simp [turn_pairs]
  | cons t rest ih =>
      intro h
      rw [List.foldl_cons, ih, simple_variant_turn, turn_pairs]
      simp

theorem simple_variant_run_eq (sys : String) (turns : List (String × String)) :
    simple_variant_run sys turns = simple_variant_init sys ++ turn_pairs turns := by
  rw [simple_variant_run, simple_variant_foldl]

/-- C5: starting from the empty session history, after N successful turns
the store has exactly 2N entries, strictly alternating user and assistant
roles starting with a user entry.  Shown for runs of the `chatbot.py`
handler (single-value replies) and of the `aibot.py` handler (streamed
replies). -/
theorem c5_alternating_history (sturns : List (String × String))
    (fturns : List (String × List String))
    (h1 : ∀ t ∈ sturns, t.1 ≠ "") (h2 : ∀ t ∈ fturns, t.1 ≠ "") :
    (chatbot_run sturns).length = 2 * sturns.length
    ∧ alt_from true (chatbot_run sturns) = true
    ∧ (aibot_run fturns).length = 2 * fturns.length
    ∧ alt_from true (aibot_run fturns) = true := by
  have e1 : chatbot_run sturns = turn_pairs sturns := by
    rw [chatbot_run, chatbot_run_from_eq sturns [] h1]
    simp
  have e2 : aibot_run fturns = stream_turn_pairs fturns := by
    rw [aibot_run, aibot_run_from_eq fturns [] h2]
    simp
  refine ⟨?_, ?_, ?_, ?_⟩
  · rw [e1, turn_pairs_length]
  · rw [e1]; exact alt_from_turn_pairs sturns
  · rw [e2, stream_turn_pairs_length]
  · rw [e2]; exact alt_from_stream_turn_pairs fturns

/-- Witness for C5: two concrete `chatbot.py` turns give four alternating
entries; one concrete streamed `aibot.py` turn gives two. -/
theorem c5_witness :
    (chatbot_run [("Hello", "Hi"), ("How are you", "Fine")]).length = 4
    ∧ alt_from true (chatbot_run [("Hello", "Hi"), ("How are you", "Fine")]) = true
    ∧ (aibot_run [("Hello", ["Hi", " there"])]).length = 2
    ∧ alt_from true (aibot_run [("Hello", ["Hi", " there"])]) = true := by
  have h := c5_alternating_history [("Hello", "Hi"), ("How are you", "Fine")]
    [("Hello", ["Hi", " there"])] (by decide) (by decide)
  simpa using h

/-- C8: the export is a pure function of the current history; it equals
the spec-side rendering (one `"<Role>: <content>"` line per entry, joined
by blank lines), on the empty history it is the empty string, and on the
spec's example it is the expected text. -/
theorem c8_export_rendering :
    (∀ history : List Message, chat_text history = export_spec_render history)
    ∧ chat_text [] = ""
    ∧ chat_text [userMsg "Hello", assistantMsg "Hi there!"]
        = "User: Hello\n\nAssistant: Hi there!" := by
  have key : ∀ history : List Message, chat_text history = export_spec_render history := by
    intro history
    induction history with
    | nil => rfl
    | cons m rest ih =>
        cases rest with
        | nil => rfl
        | cons m2 rest2 =>
            calc chat_text (m :: m2 :: rest2)
                = render_message m ++ "\n\n" ++ chat_text (m2 :: rest2) := by
                  rw [chat_text, chat_text, List.map_cons, List.map_cons,
                      intercalate_cons_cons]
              _ = render_message m ++ "\n\n" ++ export_spec_render (m2 :: rest2) := by
                  rw [ih]
              _ = export_spec_render (m :: m2 :: rest2) := rfl
  exact ⟨key, rfl, rfl⟩

/-- C3: the simplest variant (spec-modelled, not under `src/`) keeps the
system entry inside the durable history it persists; the variants under
`src/` never store a system-role entry in `chat_history` (any run of
`bot.py` handler executions preserves its absence) and instead synthesize
the system entry per call, prepending it only to the outbound request
(shown for all three `src/` variants). -/
theorem c3_system_entry_handling :
    (∀ (sys : String) (turns : List (String × String)),
        (⟨Role.system, sys⟩ : Message) ∈ simple_variant_run sys turns)
    ∧ (∀ (st : SessionState) (inputs : List TurnInput),
        (∀ m ∈ st.chat_history, m.role ≠ Role.system) →
        ∀ m ∈ (bot_run_from st inputs).chat_history, m.role ≠ Role.system)
    ∧ (∀ (st : SessionState) (p : String) (params : LLMParams) (o : StreamOutcome),
        p ≠ "" →
        (bot_handle_turn st (some p) (.ok params) o).2
          = some (build_messages bot_system_prompt (st.chat_history ++ [userMsg p])))
    ∧ (∀ (h : List Message) (p : String) (o : StreamOutcome), p ≠ "" →
        (aibot_handle_turn h (some p) o).2
          = some (build_messages bot_system_prompt (h ++ [userMsg p])))
    ∧ (∀ (h : List Message) (p : String) (o : InvokeOutcome), p ≠ "" →
        (chatbot_handle_turn h (some p) o).2
          = some (build_messages chatbot_system_prompt (h ++ [userMsg p]))) := by
  refine ⟨?_, ?_, ?_, ?_, ?_⟩
  · intro sys turns
    rw [simple_variant_run_eq]
    simp [simple_variant_init]
  · intro st inputs hst
    exact bot_run_no_system inputs st hst
  · intro st p params o hp
    cases o <;> simp [bot_handle_turn, hp]
  · intro h p o hp
    cases o <;> simp [aibot_handle_turn, hp]
  · intro h p o hp
    cases o <;> simp [chatbot_handle_turn, hp]

/-- Witness for C3 at concrete inputs: the system entry is in the simple
variant's history after one turn; a concrete `bot.py` run from the empty
history yields no system-role entry for the concrete member `userMsg
"Hello"`; the dispatched request of a concrete turn is the synthesized
system entry followed by the history. -/
theorem c3_witness :
    ((⟨Role.system, chatbot_system_prompt⟩ : Message)
        ∈ simple_variant_run chatbot_system_prompt [("Hello", "Hi")])
    ∧ (userMsg "Hello").role ≠ Role.system
    ∧ (bot_handle_turn ⟨[], "Groq", none, 0, 1024⟩ (some "Hello")
        (.ok ⟨"llama-3.1-8b-instant", 0, some 1024⟩) (.success ["Hi"])).2
      = some (build_messages bot_system_prompt [userMsg "Hello"]) := by
  have h := c3_system_entry_handling
  refine ⟨h.1 chatbot_system_prompt [("Hello", "Hi")], ?_, ?_⟩
  · exact h.2.1 ⟨[], "Groq", none, 0, 1024⟩
      [⟨some "Hello", .ok ⟨"llama-3.1-8b-instant", 0, some 1024⟩, .success ["Hi"]⟩]
      (by simp) (userMsg "Hello") (by decide)
  · have h3 := h.2.2.1 ⟨[], "Groq", none, 0, 1024⟩ "Hello"
      ⟨"llama-3.1-8b-instant", 0, some 1024⟩ (.success ["Hi"]) (by decide)
    simpa using h3

/-- C6: the dispatched request is an ordered list with the system entry
first followed by the full stored conversation; the client parameters are
the model identifier and temperature, plus `max_tokens` for every provider
except the locally hosted Ollama, for which it is omitted and for which no
credential is required (its `env_key` is `None` and resolution succeeds
under any environment). -/
theorem c6_request_shape_and_params :
    (∀ (st : SessionState) (p : String) (params : LLMParams) (frags : List String),
        p ≠ "" →
        (bot_handle_turn st (some p) (.ok params) (.success frags)).2
          = some (⟨Role.system, bot_system_prompt⟩ :: (st.chat_history ++ [userMsg p])))
    ∧ (∀ (env : String → Option String) (m : String) (t : ℚ) (mt : Nat),
        get_llm_instance env "Ollama" m t mt = .ok ⟨m, t, none⟩)
    ∧ (∀ e ∈ PROVIDER_CONFIG, e.name ≠ "Ollama" →
        ∀ (key : String), e.env_key = some key →
        ∀ (env : String → Option String) (m : String) (t : ℚ) (mt : Nat),
          truthy (env key) = true →
          get_llm_instance env e.name m t mt = .ok ⟨m, t, some mt⟩)
    ∧ (∀ e ∈ PROVIDER_CONFIG, e.name = "Ollama" → e.env_key = none) := by
  refine ⟨?_, ?_, ?_, by decide⟩
  · intro st p params frags hp
    simp [bot_handle_turn, hp, build_messages]
  · intro env m t mt
    exact get_llm_ollama env m t mt
  · intro e he hno key hkey env m t mt henv
    exact get_llm_ok_key env e (findProvider_mem e he) key hkey henv hno m t mt

/-- Witness for C6 at concrete inputs: a concrete dispatched request, the
credential-free Ollama resolution under an empty environment, and an
OpenAI resolution with the key set, carrying `max_tokens`. -/
theorem c6_witness :
    (bot_handle_turn ⟨[], "OpenAI", some "gpt-4o", 0, 1024⟩ (some "Hello")
        (.ok ⟨"gpt-4o", 0, some 1024⟩) (.success ["Hi"])).2
      = some (⟨Role.system, bot_system_prompt⟩ :: [userMsg "Hello"])
    ∧ get_llm_instance (fun _ => none) "Ollama" "llama3.3" 0 1024
        = .ok ⟨"llama3.3", 0, none⟩
    ∧ get_llm_instance (fun _ => some "sk-test") "OpenAI" "gpt-4o" 0 1024
        = .ok ⟨"gpt-4o", 0, some 1024⟩ := by
  have h := c6_request_shape_and_params
  refine ⟨?_, h.2.1 (fun _ => none) "llama3.3" 0 1024, ?_⟩
  · have h1 := h.1 ⟨[], "OpenAI", some "gpt-4o", 0, 1024⟩ "Hello"
      ⟨"gpt-4o", 0, some 1024⟩ ["Hi"] (by decide)
    simpa using h1
  · exact h.2.2.1
      ⟨"OpenAI", ["gpt-4o", "gpt-4o-mini", "gpt-3.5-turbo", "gpt-4-turbo"],
        "langchain_openai", "ChatOpenAI", some "OPENAI_API_KEY"⟩
      (by decide) (by decide) "OPENAI_API_KEY" rfl
      (fun _ => some "sk-test") "gpt-4o" 0 1024 (by decide)

/-- C7: choosing a provider different from the current one resets the
selected model to the first model of that provider's list, and every
selection state reachable from session start through the sidebar keeps any
stored model inside the currently selected provider's model list. -/
theorem c7_selection_reset_and_invariant :
    (∀ (st : SelectionState) (i : Fin PROVIDER_CONFIG.length),
        (PROVIDER_CONFIG.get i).name ≠ st.selected_provider →
        selStep st (.pickProvider i)
          = ⟨(PROVIDER_CONFIG.get i).name,
             some ((PROVIDER_CONFIG.get i).models.headD "")⟩)
    ∧ (∀ st : SelectionState, selReachable st → selInvariant st) := by
  constructor
  · intro st i hne
    rw [selStep, if_pos hne, provider_models_head i]
  · exact selReachable_invariant

/-- Witness for C7: from the initial state (provider `"Groq"`), picking
provider index 0 (`"OpenAI"`) resets the model to `"gpt-4o"`, and the
resulting reachable state keeps its stored model in the OpenAI list. -/
theorem c7_witness :
    selStep initial_selection (SelEvent.pickProvider ⟨0, by decide⟩)
      = ⟨"OpenAI", some "gpt-4o"⟩
    ∧ "gpt-4o" ∈ ["gpt-4o", "gpt-4o-mini", "gpt-3.5-turbo", "gpt-4-turbo"] := by
  have h := c7_selection_reset_and_invariant
  constructor
  · have h1 := h.1 initial_selection ⟨0, by decide⟩ (by decide)
    simpa using h1
  · have hr : selReachable ⟨"OpenAI", some "gpt-4o"⟩ :=
      ⟨[SelEvent.pickProvider ⟨0, by decide⟩], by decide⟩
    have h2 := h.2 ⟨"OpenAI", some "gpt-4o"⟩ hr "gpt-4o" rfl
    obtain ⟨config, hc, hmem⟩ := h2
    rw [show findProvider "OpenAI"
        = some ⟨"OpenAI", ["gpt-4o", "gpt-4o-mini", "gpt-3.5-turbo", "gpt-4-turbo"],
            "langchain_openai", "ChatOpenAI", some "OPENAI_API_KEY"⟩ from by decide]
      at hc
    cases hc
    exact hmem

/-- Counterexample to C2 as stated: with the OpenAI credential unset,
submitting `"Hello"` from an empty store makes resolution fail with the
message naming `OPENAI_API_KEY`, but the store does NOT remain at its
pre-turn length: the user entry appended at the start of the turn (before
`get_llm_instance` is called) brings it from length 0 to length 1. -/
theorem c2_counterexample :
    get_llm_instance (fun _ => none) "OpenAI" "gpt-4o" 0 1024
      = .error "⚠️ OPENAI_API_KEY not found in environment variables!"
    ∧ (bot_handle_turn ⟨[], "OpenAI", some "gpt-4o", 0, 1024⟩ (some "Hello")
        (get_llm_instance (fun _ => none) "OpenAI" "gpt-4o" 0 1024)
        (.failure [])).1.chat_history.length = 1
    ∧ ¬ ((bot_handle_turn ⟨[], "OpenAI", some "gpt-4o", 0, 1024⟩ (some "Hello")
        (get_llm_instance (fun _ => none) "OpenAI" "gpt-4o" 0 1024)
        (.failure [])).1.chat_history.length
          = (⟨[], "OpenAI", some "gpt-4o", 0, 1024⟩ : SessionState).chat_history.length) := by
  refine ⟨by decide, by decide, by decide⟩

/-- C2 amended: when the selected provider's required credential is absent
(or empty, which the code's truthiness check treats the same), resolution
fails with the error message naming the credential variable, no call is
dispatched, and the store keeps exactly the user entry appended at the
start of the turn: its contents are the pre-turn history plus that one
user Message, with no assistant Message added. -/
theorem c2_missing_credential (e : ProviderEntry) (he : e ∈ PROVIDER_CONFIG)
    (key : String) (hkey : e.env_key = some key)
    (env : String → Option String) (henv : truthy (env key) = false)
    (m : String) (t : ℚ) (mt : Nat) (st : SessionState) (p : String) (hp : p ≠ "")
    (o : StreamOutcome) :
    get_llm_instance env e.name m t mt
      = .error ("⚠️ " ++ key ++ " not found in environment variables!")
    ∧ (bot_handle_turn st (some p) (get_llm_instance env e.name m t mt) o).1.chat_history
        = st.chat_history ++ [userMsg p]
    ∧ (bot_handle_turn st (some p) (get_llm_instance env e.name m t mt) o).2 = none := by
  have herr := get_llm_missing_key env e (findProvider_mem e he) key hkey henv m t mt
  refine ⟨herr, ?_, ?_⟩
  · rw [herr]; simp [bot_handle_turn, hp]
  · rw [herr]; simp [bot_handle_turn, hp]

/-- Witness for the amended C2: OpenAI with an empty environment, prompt
`"Hello"` from an empty store. -/
theorem c2_witness :
    get_llm_instance (fun _ => none) "OpenAI" "gpt-4o" 0 1024
      = .error ("⚠️ " ++ "OPENAI_API_KEY" ++ " not found in environment variables!")
    ∧ (bot_handle_turn ⟨[], "OpenAI", some "gpt-4o", 0, 1024⟩ (some "Hello")
        (get_llm_instance (fun _ => none) "OpenAI" "gpt-4o" 0 1024)
        (.failure [])).1.chat_history = [userMsg "Hello"]
    ∧ (bot_handle_turn ⟨[], "OpenAI", some "gpt-4o", 0, 1024⟩ (some "Hello")
        (get_llm_instance (fun _ => none) "OpenAI" "gpt-4o" 0 1024)
        (.failure [])).2 = none := by
  have h := c2_missing_credential
    ⟨"OpenAI", ["gpt-4o", "gpt-4o-mini", "gpt-3.5-turbo", "gpt-4-turbo"],
      "langchain_openai", "ChatOpenAI", some "OPENAI_API_KEY"⟩
    (by decide) "OPENAI_API_KEY" rfl (fun _ => none) (by decide)
    "gpt-4o" 0 1024 ⟨[], "OpenAI", some "gpt-4o", 0, 1024⟩ "Hello" (by decide)
    (.failure [])
  simpa using h
